import Mathlib

/-!
Shallow embedding of the cognitive synthesis pipeline of
`src/electron/src/orb_controller.py` (classes `HabitTracker`,
`IntuitiveRecognizer`, `ProprioceptionSystem`, `SF_ORB_Controller`).
Python floats are modelled as exact rationals (`ℚ`); transcendental
primitives (`math.exp`, `math.log`, square root, `sha256`, `json.dumps`,
`time.time`, `random.random`) are supplied as parameters of an `Env`
record, since no verified claim depends on their values.  The external
collaborators (hlsf spatial engine, tribunal shadow generator, vault
store, gravity bridge) are modelled as oracle functions in `Env`,
exactly as the spec declares them black boxes; calls with side effects
are additionally recorded in an explicit event log.
-/

namespace Orb

/-- Python `x or default` applied to an optional float: `None` and `0.0`
both fall back to the default (Python treats `0.0` as falsy). -/
def pyOr (o : Option ℚ) (d : ℚ) : ℚ :=
  match o with
  | none => d
  | some v => if v = 0 then d else v

/-- Stimulus `type` tag.  Python is stringly typed; the four tags used by
the controller are given constructors, anything else is `other`. -/
inductive StimulusType
  | cursor_movement
  | text_query
  | speech_query
  | surveillance_probe
  | other (tag : String)
deriving DecidableEq, Repr

/-- A stimulus dict.  `coordinates`, `orb_coordinates`, `velocity` and
`meta.test_mode` are optional keys read with `.get` defaults in the
source. -/
structure Stimulus where
  stype : StimulusType
  coordinates : Option (ℚ × ℚ)
  orb_coordinates : Option (ℚ × ℚ)
  velocity : Option ℚ
  meta_test_mode : Option Bool
deriving DecidableEq, Repr

/-- One entry of `HabitTracker.sequence_buffer`
(`HabitTracker.record_observation`, orb_controller.py:133). -/
structure Observation where
  quadrant : String
  coords : ℚ × ℚ
  velocity : ℚ
  timestamp : ℚ
deriving DecidableEq, Repr

/-- The record crystallized by `HabitTracker._update_conjunction_frequency`
(orb_controller.py:176) and read back by `predict_next`. -/
structure HabitRecord where
  pattern : String
  frequency : ℚ
  predicted_next : String
  temporal_decay : ℚ
deriving DecidableEq, Repr

/-- Mutable state of `HabitTracker`: the ring buffer (deque, maxlen 5,
oldest first) and the process-local `pattern_cache` counts. -/
structure HabitState where
  buffer : List Observation
  patternCache : List (String × ℕ)
deriving DecidableEq, Repr

/-- Result of `HabitTracker.predict_next` (orb_controller.py:145). -/
structure Prediction where
  prediction_type : String
  target : Option String
  confidence : ℚ
  hume_vivacity : ℚ
deriving DecidableEq, Repr

/-- One epistemic shadow entry (tribunal output per perspective). -/
structure Shadow where
  confidence : ℚ
  reliability : ℚ
deriving DecidableEq, Repr

/-- An hlsf node as consumed by the controller: `node.coordinates`,
`node.n`, `node.k`, `node.adjacency_value`. -/
structure Node where
  n : ℤ
  k : ℤ
  coordinates : List ℚ
  adjacency_value : ℚ
deriving DecidableEq, Repr

/-- Snapshot of the external hlsf engine as read by the controller:
`field_map` values, `dimension`, the two density thresholds and the
`last_density_breach` attribute (`getattr` default 0). -/
structure Engine where
  field_map : List Node
  dimension : ℕ
  purge_trigger_threshold : ℚ
  max_field_density : ℚ
  last_density_breach : ℕ
deriving Repr

/-- The resolved operating mode.  The source stores the strings
`"GUARD"`, `"GUARD-HABIT"`, `"HABIT"`, `"INTUITION-JUMP"` in
`state["active_mode"]`; these are the only four values ever assigned. -/
inductive Mode
  | GUARD
  | GUARD_HABIT
  | HABIT
  | INTUITION_JUMP
deriving DecidableEq, Repr

/-- Result dict of `IntuitiveRecognizer.check_necessity`
(orb_controller.py:207).  Keys absent from a branch are `none`. -/
structure NecessityResult where
  jump_triggered : Bool
  necessity_vector : Option (ℚ × ℚ)
  substance_unity_score : ℚ
  bypass_steps : Option ℕ
  spinozan_certainty : ℚ
  field_density : ℕ
deriving DecidableEq, Repr

/-- The `state` dict built by `SF_ORB_Controller._synthesize_logic_triad`
(orb_controller.py:623).  Keys that a given path never sets are `none`
(respectively `false`). -/
structure LogicState where
  field_density : ℕ
  active_mode : Mode
  intuitive_jump_triggered : Bool
  necessity_vector : Option (ℚ × ℚ)
  spinozan_certainty : Option ℚ
  substance_unity_score : Option ℚ
  inductive_prediction : Option Prediction
  hume_vivacity : Option ℚ
  custom_habit_active : Bool
  bayes_habit_prob : Option ℚ
  bayes_jump_prob : Option ℚ
  bayes_guard_prob : Option ℚ
  epistemic_bayes : Option (List (String × ℚ))
  density_penalty : Option ℚ
deriving DecidableEq, Repr

/-- `HabitTracker._coords_to_quadrant` (orb_controller.py:161): fixed
1920×1080 frame split at the midpoint, row-major `[NW, NE, SW, SE]`. -/
def coords_to_quadrant (c : ℚ × ℚ) : String :=
  let grid_x : ℚ := 1920 / 2
  let grid_y : ℚ := 1080 / 2
  let col : ℕ := if c.1 < grid_x then 0 else 1
  let row : ℕ := if c.2 < grid_y then 0 else 1
  ["NW", "NE", "SW", "SE"].getD (row * 2 + col) "NW"

/-- `HabitTracker._serialize_pattern` (orb_controller.py:169). -/
def serialize_pattern (sequence : List Observation) : String :=
  String.intercalate "_" (sequence.map (·.quadrant))

/-- `HabitTracker._extrapolate_next_quadrant` (orb_controller.py:186):
last underscore-separated part of the key, `"UNKNOWN"` for short keys. -/
def extrapolate_next_quadrant (pattern_key : String) : String :=
  let parts := pattern_key.splitOn "_"
  if 2 ≤ parts.length then parts.getLastD "UNKNOWN" else "UNKNOWN"

/-- Count stored for `key` in the pattern cache (0 when absent). -/
def cacheCount (cache : List (String × ℕ)) (key : String) : ℕ :=
  (((cache.find? (fun kv => kv.1 == key)).map (·.2)).getD 0)

/-- `self.pattern_cache[pattern_key]["count"] += 1` with the
`if pattern_key not in self.pattern_cache` initialisation. -/
def cacheBump (cache : List (String × ℕ)) (key : String) : List (String × ℕ) :=
  if (cache.find? (fun kv => kv.1 == key)).isSome then
    cache.map (fun kv => if kv.1 == key then (kv.1, kv.2 + 1) else kv)
  else
    cache ++ [(key, 1)]

/-- The habit record crystallized for `pattern_key` given its (already
bumped) occurrence `count`
(`HabitTracker._update_conjunction_frequency`, orb_controller.py:172). -/
def conjunction_record (pattern_key : String) (count : ℕ) : HabitRecord :=
  { pattern := pattern_key
    frequency := min ((count : ℚ) / 10) 1
    predicted_next := extrapolate_next_quadrant pattern_key
    temporal_decay := 0.95 }

/-- Deque append with `maxlen=5`: drop from the front on overflow. -/
def appendCap5 (buffer : List Observation) (obs : Observation) : List Observation :=
  let b := buffer ++ [obs]
  b.drop (b.length - 5)

/-- Character-list version of Python `str.startswith`. -/
def listStartsWith : List Char → List Char → Bool
  | _, [] => true
  | [], _ :: _ => false
  | a :: as, b :: bs => a == b && listStartsWith as bs

/-- Character-list version of Python substring containment (`in`). -/
def listContainsSub : List Char → List Char → Bool
  | [], needle => listStartsWith [] needle
  | h :: t, needle => listStartsWith (h :: t) needle || listContainsSub t needle

/-- `HabitTracker.get_quadrant_heat` (orb_controller.py:190): sum of the
counts of every cached pattern key containing the quadrant label as a
substring, divided by 100 and capped at 1. -/
def get_quadrant_heat (cache : List (String × ℕ)) (quadrant_code : String) : ℚ :=
  let heat := (cache.map (fun kv =>
    if listContainsSub kv.1.toList quadrant_code.toList then kv.2 else 0)).sum
  min ((heat : ℚ) / 100) 1

/-- `IntuitiveRecognizer._calculate_bilateral_symmetry` inner pair test
(orb_controller.py:238): both coordinate lists have length ≥ 2 and
`|x1+x2| < 0.2` and `|y1−y2| < 0.2`. -/
def mirrorPair (c1 c2 : List ℚ) : Bool :=
  if 2 ≤ c1.length ∧ 2 ≤ c2.length then
    decide (|c1.getD 0 0 + c2.getD 0 0| < 0.2 ∧ |c1.getD 1 0 - c2.getD 1 0| < 0.2)
  else false

/-- Number of mirror pairs over the ordered pairs `(i, j)` with `i < j`
(the nested loop of orb_controller.py:236). -/
def mirrorCount : List (List ℚ) → ℕ
  | [] => 0
  | c :: rest => (rest.filter (fun c2 => mirrorPair c c2)).length + mirrorCount rest

/-- `total_pairs = len(nodes) * (len(nodes) - 1) / 2`
(orb_controller.py:241), as an exact rational. -/
def totalPairs (n : ℕ) : ℚ :=
  (n : ℚ) * ((n : ℚ) - 1) / 2

/-- `IntuitiveRecognizer._calculate_bilateral_symmetry`
(orb_controller.py:228). -/
def calculate_bilateral_symmetry (e : Engine) : ℚ :=
  if e.field_map = [] then 0
  else
    let nodes := e.field_map
    if nodes.length < 2 then 0
    else
      let mc := mirrorCount (nodes.map (·.coordinates))
      if 0 < totalPairs nodes.length then (mc : ℚ) / totalPairs nodes.length else 0

/-- `IntuitiveRecognizer._calculate_substance_vector`
(orb_controller.py:244): centroid over the first `min(dimension, 18)`
components (missing components contribute 0), first two entries. -/
def calculate_substance_vector (e : Engine) : ℚ × ℚ :=
  if e.field_map = [] then (0, 0)
  else
    let dlen := min e.dimension 18
    let count : ℚ := (e.field_map.length : ℚ)
    let centroid := (List.range dlen).map (fun i =>
      ((e.field_map.map (fun nd =>
        if i < nd.coordinates.length then nd.coordinates.getD i 0 else 0)).sum) / count)
    (centroid.getD 0 0, centroid.getD 1 0)

/-- `IntuitiveRecognizer.density_threshold` (orb_controller.py:205). -/
def density_threshold : ℕ := 50

/-- `IntuitiveRecognizer.symmetry_threshold` (orb_controller.py:204). -/
def symmetry_threshold : ℚ := 0.9

/-- `IntuitiveRecognizer.check_necessity` (orb_controller.py:207).
The `stimulus` and `current_node` arguments are unused by the source
body (the substance vector ignores `current_node`), so they are not
parameters here. -/
def check_necessity (e : Engine) : NecessityResult :=
  let field_density := e.field_map.length
  if density_threshold < field_density ∧
      symmetry_threshold < calculate_bilateral_symmetry e then
    { jump_triggered := true
      necessity_vector := some (calculate_substance_vector e)
      substance_unity_score := calculate_bilateral_symmetry e
      bypass_steps := some (field_density / 10)
      spinozan_certainty := 0.98
      field_density := field_density }
  else
    { jump_triggered := false
      necessity_vector := none
      substance_unity_score := calculate_bilateral_symmetry e
      bypass_steps := none
      spinozan_certainty := 0
      field_density := field_density }

/-- `SF_ORB_Controller._verdict_from_mode` (orb_controller.py:589).  The
source matches on the mode strings with a final catch-all `"no_act"`;
`GUARD` is the only remaining mode value. -/
def verdict_from_mode : Mode → String
  | .INTUITION_JUMP => "escalate"
  | .HABIT => "act"
  | .GUARD_HABIT => "monitor"
  | .GUARD => "no_act"

/-- `shadows.get(key, {})` on the shadow dict. -/
def lookupShadow (shadows : List (String × Shadow)) (key : String) : Option Shadow :=
  (shadows.find? (fun kv => kv.1 == key)).map (·.2)

/-- `.get("confidence", 0.5)` on a possibly-missing shadow dict. -/
def shadowConf (o : Option Shadow) : ℚ :=
  (o.map (·.confidence)).getD 0.5

/-- One perspective entry of the `core_4` block
(`SF_ORB_Controller._build_core_4_returns`, orb_controller.py:484). -/
structure PerspReturn where
  shadow : Option Shadow
  confidence : ℚ
  advisory_verdict : String
deriving DecidableEq, Repr

/-- The `ecm` entry of `core_4`: convergence weights plus raw inputs. -/
structure EcmReturn where
  convergence_weights : List (String × ℚ)
  locke : Option Shadow
  hume : Option Shadow
  kant : Option Shadow
  spinoza : Option Shadow
  note : String
deriving DecidableEq, Repr

/-- The `core_4` block of the correlation envelope. -/
structure Core4 where
  caleon : PerspReturn
  kaygee : PerspReturn
  cali_x_one : PerspReturn
  ecm : EcmReturn
deriving DecidableEq, Repr

/-- `tension_indicators` of `_build_advisory_plus_one`
(orb_controller.py:528). -/
structure TensionIndicators where
  entropy : ℚ
  spread : ℚ
  reweight_recommended : Bool
deriving DecidableEq, Repr

/-- The `advisory_plus_one` block of the correlation envelope. -/
structure AdvisoryPlusOne where
  advisory_only : Bool
  confidence_gradients : List (String × ℚ)
  tension_indicators : TensionIndicators
  suggestion : String
deriving DecidableEq, Repr

/-- One event of `_build_cali_reflection` (orb_controller.py:560). -/
structure CaliEvent where
  etype : String
  detail : String
deriving DecidableEq, Repr

/-- The `cali_reflection` block of the correlation envelope. -/
structure CaliReflection where
  observational_only : Bool
  events : List CaliEvent
  drift_detected : Bool
  anomaly_detected : Bool
  ethical_tension : Bool
deriving DecidableEq, Repr

/-- The correlation envelope assembled by
`SF_ORB_Controller._build_correlation_envelope` (orb_controller.py:463). -/
structure Envelope where
  stardate : ℚ
  glyph_trace : String
  core_4 : Core4
  advisory_plus_one : AdvisoryPlusOne
  cali_reflection : CaliReflection
  final_verdict : String
  final_verdict_source : String
  confidence : ℚ
deriving DecidableEq, Repr

/-- The `spatial_coord` dict built in `cognitively_emerge`
(orb_controller.py:410). -/
structure SpatialCoord where
  node_id : String
  recursion_depth : ℤ
  coordinates : List ℚ
  adjacency_value : ℚ
deriving DecidableEq, Repr

/-- The dict returned by `CrossDomainPredicate.pulse`
(orb_controller.py:83).  `cognitive_mode` uses `active_mode`, which the
synthesizer always sets, so the truthiness fallback chain of the source
is unreachable here. -/
structure Pulse where
  glow_intensity : ℚ
  cognitive_mode : Mode
  spatial_coordinate : SpatialCoord
  epistemic_alignment : ℚ
  deterministic : Bool
  predictive_intent : Option Prediction
  jump_vector : Option (ℚ × ℚ)
  navigation_vector : ℚ × ℚ
  final_verdict : String
  final_verdict_source : String
deriving DecidableEq, Repr

/-- `CrossDomainPredicate` plus the attributes attached to it right
after construction in `cognitively_emerge` (orb_controller.py:417). -/
structure Thought where
  epistemic_traces : List (String × Shadow)
  hlsf_node : SpatialCoord
  logic_validity : LogicState
  confidence : ℚ
  timestamp : ℚ
  gravity_stats : Option ℚ
  navigation_vector : ℚ × ℚ
  ucm_envelope : Envelope
  cali_reflection : CaliReflection
  final_verdict : String
  final_verdict_source : String
deriving DecidableEq, Repr

/-- The record crystallized for a full synthesis cycle
(orb_controller.py:443). -/
structure ThoughtCrystalRecord where
  predicate : Pulse
  confidence : ℚ
  triad_c_mode : Mode
  field_density : ℕ
  ucm_envelope : Envelope
  cali_reflection : CaliReflection
deriving DecidableEq, Repr

/-- Observable side effects of one `cognitively_emerge` call: vault
crystallizations, the tribunal shadow request, and every mutation the
controller asks of the Bayesian engine. -/
inductive Event
  | crystallize_habit (key : String) (record : HabitRecord)
  | crystallize_thought (key : Stimulus) (record : ThoughtCrystalRecord)
  | shadows_requested (stim : Stimulus)
  | prior_set (hyp : String) (probability strength : ℚ)
  | evidence_added (hyp eid : String) (likelihood : ℚ) (source : String) (reliability : ℚ)
  | outcome_updated (hyp : String) (success : Bool) (weight : ℚ)
deriving DecidableEq, Repr

/-- Interface of the external `BayesianEngine` (imported from
`bayesian_engine.py`, which is not part of this repository's sources):
the controller only calls these five operations. -/
structure BayesModel (β : Type) where
  has_prior : β → String → Bool
  set_prior : β → String → ℚ → ℚ → β
  add_evidence : β → String → String → ℚ → String → ℚ → β
  calculate_posterior : β → String → Option ℚ
  update_with_outcome : β → String → Bool → ℚ → β

/-- Mutable state of `ProprioceptionSystem` (orb_controller.py:257). -/
structure ProprioState where
  position : ℚ × ℚ
  velocity : ℚ × ℚ
  last_update : ℚ
deriving DecidableEq, Repr

/-- The controller-owned mutable state touched inside a synthesis
cycle: the habit tracker, the proprioception system and the Bayesian
engine (of abstract state type `β`). -/
structure ControllerState (β : Type) where
  habit : HabitState
  proprio : ProprioState
  bayes : β

/-- External collaborators and ambient inputs of one
`cognitively_emerge` call, all black boxes per the spec: the hlsf
engine snapshot, wall-clock readings, the two `random.random()` draws,
transcendental float primitives, the gravity bridge, the vault and the
tribunal.  `γ` is the type of cached lightning results. -/
structure Env (γ : Type) where
  engine : Engine
  now : ℚ
  stamp : String
  rand1 : ℚ
  rand2 : ℚ
  sqrt_fn : ℚ → ℚ
  exp_fn : ℚ → ℚ
  log_fn : ℚ → ℚ
  sha256_fn : String → String
  json_fn : Stimulus → String
  float_str : ℚ → String
  gravity_renewal : Stimulus → Option ℚ
  posteriori_cache : String → Option HabitRecord
  lightning_query : Stimulus → Option γ
  shadows : Stimulus → List (String × Shadow)
  map_adjacency : Stimulus → Node
  neighbors : Node → ℕ → List Node
  thought_vector : List Node → List ℚ

/-- Result of `cognitively_emerge`: either the verbatim cached result
(lightning bypass) or a freshly synthesized thought. -/
inductive EmergeResult (γ : Type)
  | bypass (r : γ)
  | thought (t : Thought)
deriving DecidableEq, Repr

/-- `SF_ORB_Controller._check_sovereignty` (orb_controller.py:615). -/
def check_sovereignty (stim : Stimulus) : Bool :=
  if stim.meta_test_mode = some true then true
  else if stim.stype = .surveillance_probe then false
  else true

/-- `HabitTracker.record_observation` (orb_controller.py:128).  Returns
the recorded observation, the new tracker state and the crystallize
event emitted by `_update_conjunction_frequency` (if any). -/
def record_observation (now : ℚ) (h : HabitState) (stim : Stimulus) :
    Option Observation × HabitState × List Event :=
  if stim.stype ≠ .cursor_movement then (none, h, [])
  else
    let coords := stim.coordinates.getD (0, 0)
    let quadrant := coords_to_quadrant coords
    let obs : Observation :=
      { quadrant := quadrant
        coords := coords
        velocity := stim.velocity.getD 0
        timestamp := now }
    let buffer1 := appendCap5 h.buffer obs
    if 3 ≤ buffer1.length then
      let pattern_key := serialize_pattern buffer1
      let cache1 := cacheBump h.patternCache pattern_key
      let record := conjunction_record pattern_key (cacheCount cache1 pattern_key)
      (some obs, { buffer := buffer1, patternCache := cache1 },
        [.crystallize_habit ("habit_" ++ pattern_key) record])
    else
      (some obs, { buffer := buffer1, patternCache := h.patternCache }, [])

/-- `HabitTracker.predict_next` (orb_controller.py:145).  The vault's
`posteriori_cache` is the oracle `cache`; a present cache entry is
modelled as `some` (the source tests Python truthiness of the dict). -/
def predict_next (cache : String → Option HabitRecord) (h : HabitState) :
    Option Prediction :=
  if h.buffer.length < 3 then none
  else
    let current_pattern := serialize_pattern (h.buffer.drop (h.buffer.length - 3))
    match cache ("habit_" ++ current_pattern) with
    | some c =>
        some { prediction_type := "QUADRANT_TRANSITION"
               target := some c.predicted_next
               confidence := c.frequency
               hume_vivacity := min (c.frequency * 1.2) 1 }
    | none =>
        some { prediction_type := "UNSURE"
               target := none
               confidence := 0.3
               hume_vivacity := 0.4 }

/-- `ProprioceptionSystem.update_physics` (orb_controller.py:267). -/
def update_physics (p : ProprioState) (current_pos : ℚ × ℚ) (dt : ℚ) (now : ℚ) :
    ProprioState :=
  let dx := current_pos.1 - p.position.1
  let dy := current_pos.2 - p.position.2
  { position := current_pos
    velocity := (if 0 < dt then dx / dt else 0, if 0 < dt then dy / dt else 0)
    last_update := now }

/-- `ProprioceptionSystem.calculate_navigation_vector`
(orb_controller.py:274).  `sqrtf` stands for the float square root;
`rand1`, `rand2` are this call's two `random.random()` draws. -/
def calculate_navigation_vector (sqrtf : ℚ → ℚ) (rand1 rand2 : ℚ)
    (p : ProprioState) (cursor_pos : ℚ × ℚ) (habit_heatmap gravity_density : ℚ) :
    ℚ × ℚ :=
  let dx := cursor_pos.1 - p.position.1
  let dy := cursor_pos.2 - p.position.2
  let dist := sqrtf (dx ^ 2 + dy ^ 2)
  if dist = 0 then (0, 0)
  else
    let min_safe : ℚ := 150
    let target_safe : ℚ := 250
    let force_mag : ℚ :=
      if dist < min_safe then -1 * (min_safe - dist) / min_safe
      else if dist > target_safe then 0.5 * (dist - target_safe) / 1000
      else 0
    let nx := dx / dist
    let ny := dy / dist
    let nav : ℚ × ℚ := (nx * force_mag, ny * force_mag)
    let nav :=
      if habit_heatmap ≠ 0 ∧ habit_heatmap > 0.5 then
        (nav.1 + (rand1 - 0.5) * habit_heatmap, nav.2 + (rand2 - 0.5) * habit_heatmap)
      else nav
    let nav :=
      if gravity_density > 0 then
        (nav.1 - nx * gravity_density * 0.5, nav.2 - ny * gravity_density * 0.5)
      else nav
    nav

/-- The `state` dict right after
`state = {"field_density": effective_density, "active_mode": "GUARD"}`
(orb_controller.py:627). -/
def baseLogicState (density : ℕ) : LogicState :=
  { field_density := density
    active_mode := .GUARD
    intuitive_jump_triggered := false
    necessity_vector := none
    spinozan_certainty := none
    substance_unity_score := none
    inductive_prediction := none
    hume_vivacity := none
    custom_habit_active := false
    bayes_habit_prob := none
    bayes_jump_prob := none
    bayes_guard_prob := none
    epistemic_bayes := none
    density_penalty := none }

/-- The `if inductive:` branch of `_synthesize_logic_triad`
(orb_controller.py:639). -/
def rule_inductive (induc : Option Prediction) (s : LogicState) : LogicState :=
  match induc with
  | none => s
  | some p =>
      { s with
        inductive_prediction := some p
        hume_vivacity := some p.hume_vivacity
        custom_habit_active := decide (p.confidence > 0.35)
        active_mode := if p.confidence > 0.35 then .HABIT else .GUARD_HABIT }

/-- Density rule 4 of `_synthesize_logic_triad` (orb_controller.py:662):
force GUARD-HABIT when a guarded mode meets the purge threshold. -/
def rule_density_guard (purge_thr : ℚ) (density : ℕ) (s : LogicState) : LogicState :=
  if (s.active_mode = .GUARD ∨ s.active_mode = .GUARD_HABIT) ∧
      (density : ℚ) ≥ purge_thr then
    { s with active_mode := .GUARD_HABIT, density_penalty := some 1 }
  else s

/-- Density rule 5 of `_synthesize_logic_triad` (orb_controller.py:669):
emergency INTUITION-JUMP at 95 % of the maximum field density. -/
def rule_emergency_jump (max_density : ℚ) (density : ℕ) (s : LogicState) : LogicState :=
  if (density : ℚ) ≥ max_density * 0.95 ∧ s.active_mode ≠ .INTUITION_JUMP then
    { s with active_mode := .INTUITION_JUMP, density_penalty := some 1.5 }
  else s

/-- Posterior rule 6 of `_synthesize_logic_triad` (orb_controller.py:676). -/
def rule_habit_posterior (habit_post : ℚ) (s : LogicState) : LogicState :=
  if (s.active_mode = .GUARD ∨ s.active_mode = .GUARD_HABIT) ∧ habit_post > 0.55 then
    { s with active_mode := .HABIT }
  else s

/-- Posterior rule 7 of `_synthesize_logic_triad` (orb_controller.py:678). -/
def rule_jump_posterior (jump_post : ℚ) (s : LogicState) : LogicState :=
  if s.active_mode ≠ .INTUITION_JUMP ∧ jump_post > 0.45 then
    { s with active_mode := .INTUITION_JUMP }
  else s

/-- `SF_ORB_Controller._synthesize_logic_triad` (orb_controller.py:623).
The posterior oracles are passed as the optional values
`self.bayes.calculate_posterior(...)`, to which the source applies
`or 0.0` (here `pyOr`).  The intuitive branch returns before the
posterior block, exactly as the source does. -/
def synthesize_logic_triad (e : Engine) (induc : Option Prediction)
    (intuitive : NecessityResult) (habit_post_o jump_post_o guard_post_o : Option ℚ)
    (bayes_shadows : List (String × ℚ)) : LogicState :=
  let live_density := e.field_map.length
  let breach_density := e.last_density_breach
  let effective_density := max live_density breach_density
  if intuitive.jump_triggered then
    { baseLogicState effective_density with
      intuitive_jump_triggered := true
      necessity_vector := intuitive.necessity_vector
      spinozan_certainty := some intuitive.spinozan_certainty
      active_mode := .INTUITION_JUMP
      substance_unity_score := some intuitive.substance_unity_score }
  else
    let habit_post := pyOr habit_post_o 0
    let jump_post := pyOr jump_post_o 0
    let guard_post := pyOr guard_post_o 0
    let s := rule_inductive induc (baseLogicState effective_density)
    let s := { s with
      bayes_habit_prob := some habit_post
      bayes_jump_prob := some jump_post
      bayes_guard_prob := some guard_post
      epistemic_bayes := some bayes_shadows }
    let s := rule_density_guard e.purge_trigger_threshold effective_density s
    let s := rule_emergency_jump e.max_field_density effective_density s
    let s := rule_habit_posterior habit_post s
    let s := rule_jump_posterior jump_post s
    s

/-- `SF_ORB_Controller._calculate_convergence` (orb_controller.py:689). -/
def calculate_convergence (shadows : List (String × Shadow)) (logic : LogicState)
    (thought_vec : List ℚ) : ℚ :=
  let base : ℚ := 0.85
  let base :=
    if logic.intuitive_jump_triggered then base + 0.14
    else if logic.custom_habit_active then base + 0.08
    else base
  let base := if 3 ≤ shadows.length then base + 0.02 else base
  let vec_magnitude := if thought_vec = [] then 0 else (thought_vec.map (fun v => |v|)).sum
  let base := base + min (vec_magnitude * 0.001) 0.02
  min base 0.99

/-- `SF_ORB_Controller._update_bayesian_shadows` (orb_controller.py:717):
per shadow, seed a 0.5 prior for the `<mind>_pattern_persistence`
hypothesis when missing, add one evidence item, and read the posterior
back (`or likelihood` on a falsy posterior). -/
def shadow_fold_step {β : Type} (bm : BayesModel β) (stamp : String)
    (acc : List (String × ℚ) × β × List Event) (ms : String × Shadow) :
    List (String × ℚ) × β × List Event :=
  let view := acc.1
  let b := acc.2.1
  let evs := acc.2.2
  let mind := ms.1
  let hyp := mind ++ "_pattern_persistence"
  let likelihood := ms.2.confidence
  let reliability := ms.2.reliability
  let seeded : β × List Event :=
    if bm.has_prior b hyp then (b, evs)
    else (bm.set_prior b hyp 0.5 1, evs ++ [.prior_set hyp 0.5 1])
  let b := bm.add_evidence seeded.1 hyp (stamp ++ "_" ++ mind) likelihood mind reliability
  let evs := seeded.2 ++ [.evidence_added hyp (stamp ++ "_" ++ mind) likelihood mind reliability]
  let post := pyOr (bm.calculate_posterior b hyp) likelihood
  (view ++ [(mind, post)], b, evs)

def update_bayesian_shadows {β : Type} (bm : BayesModel β) (b : β)
    (shadows : List (String × Shadow)) (stamp : String) :
    List (String × ℚ) × β × List Event :=
  shadows.foldl (shadow_fold_step bm stamp) ([], b, [])

/-- `SF_ORB_Controller._update_bayesian_outcome` (orb_controller.py:736):
one outcome update per named hypothesis with the three success
predicates of the source. -/
def update_bayesian_outcome {β : Type} (bm : BayesModel β) (b : β)
    (logic : LogicState) : β × List Event :=
  let mode := logic.active_mode
  let predconf : ℚ := (logic.inductive_prediction.map (·.confidence)).getD 0
  let success := decide ((mode = .HABIT ∨ mode = .GUARD_HABIT) ∧ predconf > 0.4)
  let b := bm.update_with_outcome b "habit_continues" success 0.7
  let jump_success := decide (mode = .INTUITION_JUMP ∧ logic.intuitive_jump_triggered = true)
  let b := bm.update_with_outcome b "jump_necessary" jump_success 0.6
  let guard_success := decide (mode = .GUARD) && !success && !jump_success
  let b := bm.update_with_outcome b "guard_sufficient" guard_success 0.5
  (b, [.outcome_updated "habit_continues" success 0.7,
       .outcome_updated "jump_necessary" jump_success 0.6,
       .outcome_updated "guard_sufficient" guard_success 0.5])

/-- `SF_ORB_Controller._softmax` (orb_controller.py:603), with the float
exponential as the oracle `expf`; `sum(exps) or 1.0` is the zero-sum
fallback. -/
def softmax (expf : ℚ → ℚ) (values : List ℚ) : List ℚ :=
  match values with
  | [] => []
  | v :: vs =>
      let max_val := (v :: vs).foldl max v
      let exps := (v :: vs).map (fun x => expf (x - max_val))
      let total := exps.sum
      let total := if total = 0 then 1 else total
      exps.map (· / total)

/-- `SF_ORB_Controller._normalize_weights` (orb_controller.py:611);
`sum(weights.values()) or 1.0` is the zero-sum fallback. -/
def normalize_weights (weights : List (String × ℚ)) : List (String × ℚ) :=
  let total := (weights.map (·.2)).sum
  let total := if total = 0 then 1 else total
  weights.map (fun kv => (kv.1, kv.2 / total))

/-- `SF_ORB_Controller._build_core_4_returns` (orb_controller.py:484).
The `bayes_shadows` argument is accepted and ignored, as in the source
body. -/
def build_core_4_returns (shadows : List (String × Shadow))
    (bayes_shadows : List (String × ℚ)) (logic : LogicState) : Core4 :=
  let _ := bayes_shadows
  let caleon_shadow := lookupShadow shadows "spinoza"
  let kaygee_shadow := lookupShadow shadows "kant"
  let cali_shadow := lookupShadow shadows "hume"
  let locke_shadow := lookupShadow shadows "locke"
  let advisory_verdict := verdict_from_mode logic.active_mode
  let convergence_weights := normalize_weights
    [("caleon", shadowConf caleon_shadow),
     ("kaygee", shadowConf kaygee_shadow),
     ("cali_x_one", shadowConf cali_shadow),
     ("empirical", shadowConf locke_shadow)]
  { caleon := { shadow := caleon_shadow, confidence := shadowConf caleon_shadow,
                advisory_verdict := advisory_verdict }
    kaygee := { shadow := kaygee_shadow, confidence := shadowConf kaygee_shadow,
                advisory_verdict := advisory_verdict }
    cali_x_one := { shadow := cali_shadow, confidence := shadowConf cali_shadow,
                    advisory_verdict := advisory_verdict }
    ecm := { convergence_weights := convergence_weights
             locke := locke_shadow
             hume := cali_shadow
             kant := kaygee_shadow
             spinoza := caleon_shadow
             note := "ECM emits convergence weights only (advisory)." } }

/-- `SF_ORB_Controller._build_advisory_plus_one` (orb_controller.py:528),
with float `exp`/`log` as the oracles `expf`/`logf`.  The confidence
dict always has its three keys, so the `if confidences else 0.0` guard
of the spread is vacuous. -/
def build_advisory_plus_one (expf logf : ℚ → ℚ) (core_4 : Core4) : AdvisoryPlusOne :=
  let c1 := core_4.caleon.confidence
  let c2 := core_4.kaygee.confidence
  let c3 := core_4.cali_x_one.confidence
  let weights := softmax expf [c1, c2, c3]
  let gradients := List.zip ["caleon", "kaygee", "cali_x_one"] weights
  let entropy := -((weights.map (fun p => p * logf (p + 1 / 1000000000))).sum)
  let spread := max c1 (max c2 c3) - min c1 (min c2 c3)
  let reweight := decide (entropy > 1 ∨ spread > 0.2)
  { advisory_only := true
    confidence_gradients := gradients
    tension_indicators :=
      { entropy := entropy, spread := spread, reweight_recommended := reweight }
    suggestion :=
      if reweight then "consider re-weighting high-tension lobes"
      else "no reweight suggested" }

/-- `SF_ORB_Controller._build_cali_reflection` (orb_controller.py:560). -/
def build_cali_reflection (advisory_plus_one : AdvisoryPlusOne)
    (logic : LogicState) : CaliReflection :=
  let entropy := advisory_plus_one.tension_indicators.entropy
  let spread := advisory_plus_one.tension_indicators.spread
  let events : List CaliEvent :=
    (if spread > 0.2 then
      [{ etype := "drift", detail := "confidence spread exceeded threshold" }] else []) ++
    (if entropy > 1 then
      [{ etype := "anomaly", detail := "high entropy in lobe gradients" }] else []) ++
    (if logic.active_mode = .INTUITION_JUMP ∧ entropy > 0.9 then
      [{ etype := "tension", detail := "intuition jump under high entropy" }] else [])
  { observational_only := true
    events := events
    drift_detected := events.any (fun ev => ev.etype == "drift")
    anomaly_detected := events.any (fun ev => ev.etype == "anomaly")
    ethical_tension := events.any (fun ev => ev.etype == "tension") }

/-- `SF_ORB_Controller._glyph_trace` (orb_controller.py:598):
SHA-256 over `f"{stardate}:{json.dumps(stimulus, sort_keys=True)}"`,
with the hash, canonical serialization and float formatting supplied as
oracles. -/
def glyph_trace {γ : Type} (env : Env γ) (stim : Stimulus) (stardate : ℚ) : String :=
  env.sha256_fn (env.float_str stardate ++ ":" ++ env.json_fn stim)

/-- `SF_ORB_Controller._build_correlation_envelope` (orb_controller.py:463). -/
def build_correlation_envelope {γ : Type} (env : Env γ) (stim : Stimulus)
    (shadows : List (String × Shadow)) (bayes_shadows : List (String × ℚ))
    (logic : LogicState) (confidence : ℚ) : Envelope :=
  let stardate := env.now
  let core_4 := build_core_4_returns shadows bayes_shadows logic
  let advisory_plus_one := build_advisory_plus_one env.exp_fn env.log_fn core_4
  { stardate := stardate
    glyph_trace := glyph_trace env stim stardate
    core_4 := core_4
    advisory_plus_one := advisory_plus_one
    cali_reflection := build_cali_reflection advisory_plus_one logic
    final_verdict := verdict_from_mode logic.active_mode
    final_verdict_source := "UCM Core-4 deliberation (ECM advisory only)"
    confidence := confidence }

/-- `CrossDomainPredicate._calculate_axiomatic alignment helper`
(orb_controller.py:109): mean of the shadow confidences, 0 when there
are no traces. -/
def calculate_alignment (traces : List (String × Shadow)) : ℚ :=
  if traces = [] then 0
  else (traces.map (fun kv => kv.2.confidence)).sum / (traces.length : ℚ)

/-- `CrossDomainPredicate.pulse` (orb_controller.py:83). -/
def pulse_of (t : Thought) : Pulse :=
  { glow_intensity := t.confidence
    cognitive_mode := t.logic_validity.active_mode
    spatial_coordinate := t.hlsf_node
    epistemic_alignment := calculate_alignment t.epistemic_traces
    deterministic := decide (t.confidence > 0.95)
    predictive_intent := t.logic_validity.inductive_prediction
    jump_vector := t.logic_validity.necessity_vector
    navigation_vector := t.navigation_vector
    final_verdict := t.final_verdict
    final_verdict_source := t.final_verdict_source }

/-- The Bayesian-shadow update step of a full cycle
(`self._update_bayesian_shadows(shadows)` at orb_controller.py:397),
with the shadow dict obtained from the tribunal oracle. -/
def emerge_shadow_step {β γ : Type} (bm : BayesModel β) (env : Env γ)
    (s : ControllerState β) (stim : Stimulus) :
    List (String × ℚ) × β × List Event :=
  update_bayesian_shadows bm s.bayes (env.shadows stim) env.stamp

/-- The logic state synthesized by a full cycle
(`self._synthesize_logic_triad(inductive, intuition, bayes_shadows)` at
orb_controller.py:399), including the habit-tracker update, the
necessity check and the inductive prediction that feed into it. -/
def emerge_logic {β γ : Type} (bm : BayesModel β) (env : Env γ)
    (s : ControllerState β) (stim : Stimulus) : LogicState :=
  let habit1 := (record_observation env.now s.habit stim).2.1
  let intuition := check_necessity env.engine
  let induc :=
    if intuition.jump_triggered then none
    else predict_next env.posteriori_cache habit1
  let bayes1 := (emerge_shadow_step bm env s stim).2.1
  synthesize_logic_triad env.engine induc intuition
    (bm.calculate_posterior bayes1 "habit_continues")
    (bm.calculate_posterior bayes1 "jump_necessary")
    (bm.calculate_posterior bayes1 "guard_sufficient")
    (emerge_shadow_step bm env s stim).1

/-- `SF_ORB_Controller.cognitively_emerge` (orb_controller.py:350),
returning the result, the new controller state and the event log.
A `some` from `lightning_query` models a truthy cached result. -/
def cognitively_emerge {β γ : Type} (bm : BayesModel β) (env : Env γ)
    (s : ControllerState β) (stim : Stimulus) :
    Option (EmergeResult γ) × ControllerState β × List Event :=
  if check_sovereignty stim = false then (none, s, [])
  else
    let rec_out := record_observation env.now s.habit stim
    let habit1 := rec_out.2.1
    let ev1 := rec_out.2.2
    let gravity_stats := env.gravity_renewal stim
    let orb_pos := stim.orb_coordinates.getD s.proprio.position
    let proprio1 := update_physics s.proprio orb_pos 0.1 env.now
    let cursor_pos := stim.coordinates.getD (0, 0)
    let gravity_density := gravity_stats.getD 0
    let current_orb_quad := coords_to_quadrant proprio1.position
    let habit_heat := get_quadrant_heat habit1.patternCache current_orb_quad
    let nav_vector := calculate_navigation_vector env.sqrt_fn env.rand1 env.rand2
      proprio1 cursor_pos habit_heat gravity_density
    let node := env.map_adjacency stim
    let intuition := check_necessity env.engine
    let _induc :=
      if intuition.jump_triggered then none
      else predict_next env.posteriori_cache habit1
    match env.lightning_query stim with
    | some r => (some (.bypass r), { s with habit := habit1, proprio := proprio1 }, ev1)
    | none =>
      let shadows := env.shadows stim
      let shadow_out := emerge_shadow_step bm env s stim
      let bayes_view := shadow_out.1
      let bayes1 := shadow_out.2.1
      let ev2 := shadow_out.2.2
      let logic := emerge_logic bm env s stim
      let neighbors := env.neighbors node 3
      let thought_vec :=
        if neighbors ≠ [] then env.thought_vector (neighbors ++ [node])
        else List.replicate env.engine.dimension 0
      let confidence := calculate_convergence shadows logic thought_vec
      let spatial_coord : SpatialCoord :=
        { node_id := "NODE_" ++ toString node.n ++ "_" ++ toString node.k
          recursion_depth := node.k
          coordinates := node.coordinates
          adjacency_value := node.adjacency_value }
      let envp := build_correlation_envelope env stim shadows bayes_view logic confidence
      let thought : Thought :=
        { epistemic_traces := shadows
          hlsf_node := spatial_coord
          logic_validity := logic
          confidence := confidence
          timestamp := env.now
          gravity_stats := gravity_stats
          navigation_vector := nav_vector
          ucm_envelope := envp
          cali_reflection := envp.cali_reflection
          final_verdict := envp.final_verdict
          final_verdict_source := envp.final_verdict_source }
      let outcome_out := update_bayesian_outcome bm bayes1 logic
      let bayes2 := outcome_out.1
      let ev3 := outcome_out.2
      let crystal : ThoughtCrystalRecord :=
        { predicate := pulse_of thought
          confidence := confidence
          triad_c_mode := logic.active_mode
          field_density := logic.field_density
          ucm_envelope := envp
          cali_reflection := envp.cali_reflection }
      (some (.thought thought),
       { habit := habit1, proprio := proprio1, bayes := bayes2 },
       ev1 ++ [.shadows_requested stim] ++ ev2 ++ ev3 ++ [.crystallize_thought stim crystal])

/-- Classifier: is this a vault crystallization of a habit record? -/
def isHabitCrystal : Event → Bool
  | .crystallize_habit _ _ => true
  | _ => false

/-- Classifier: is this a vault crystallization of a synthesized thought? -/
def isThoughtCrystal : Event → Bool
  | .crystallize_thought _ _ => true
  | _ => false

/-- Classifier: is this a tribunal shadow request? -/
def isShadowRequest : Event → Bool
  | .shadows_requested _ => true
  | _ => false

/-- Classifier: is this a Bayesian prior initialisation? -/
def isPriorEvent : Event → Bool
  | .prior_set _ _ _ => true
  | _ => false

/-- Classifier: is this a Bayesian evidence addition? -/
def isEvidenceEvent : Event → Bool
  | .evidence_added _ _ _ _ _ => true
  | _ => false

/-- Classifier: is this a Bayesian outcome update? -/
def isOutcomeEvent : Event → Bool
  | .outcome_updated _ _ _ => true
  | _ => false

/-- Spec-side definition for claim C5: the centroid of all node
coordinates, restricted to the first two dimensions (spec 4.3:
"a necessity vector equal to the centroid of all node coordinates
(first two dimensions only)").  Compared against the source-side
`calculate_substance_vector`. -/
def centroid_first_two (e : Engine) : ℚ × ℚ :=
  ((e.field_map.map (fun nd => nd.coordinates.getD 0 0)).sum / (e.field_map.length : ℚ),
   (e.field_map.map (fun nd => nd.coordinates.getD 1 0)).sum / (e.field_map.length : ℚ))

/-- Trivial instantiation of the Bayesian-engine interface, used by
concrete witnesses (the verified claims hold for every instantiation). -/
def bm0 : BayesModel Unit :=
  { has_prior := fun _ _ => false
    set_prior := fun b _ _ _ => b
    add_evidence := fun b _ _ _ _ _ => b
    calculate_posterior := fun _ _ => none
    update_with_outcome := fun b _ _ _ => b }

/-- A node at the spatial origin. -/
def node0 : Node := { n := 0, k := 0, coordinates := [0, 0], adjacency_value := 0 }

/-- An empty hlsf engine snapshot. -/
def engineEmpty : Engine :=
  { field_map := [], dimension := 2, purge_trigger_threshold := 10
    max_field_density := 1000, last_density_breach := 0 }

/-- Two live nodes with the purge threshold already met (witness input). -/
def engineC1 : Engine :=
  { field_map := [node0, node0], dimension := 2, purge_trigger_threshold := 2
    max_field_density := 1000, last_density_breach := 0 }

/-- Empty live field but a recorded density breach far above both
thresholds (witness input for the emergency-jump persistence). -/
def engineC9a : Engine :=
  { field_map := [], dimension := 2, purge_trigger_threshold := 10
    max_field_density := 20, last_density_breach := 100 }

/-- Empty live field with a recorded breach above the purge threshold
but below the emergency band (witness input for the forced
GUARD-HABIT persistence). -/
def engineC9b : Engine :=
  { field_map := [], dimension := 2, purge_trigger_threshold := 10
    max_field_density := 20, last_density_breach := 12 }

/-- A `check_necessity` result with no jump (witness input). -/
def nr0 : NecessityResult :=
  { jump_triggered := false, necessity_vector := none, substance_unity_score := 0
    bypass_steps := none, spinozan_certainty := 0, field_density := 0 }

/-- A fully stubbed environment over the empty engine (witness input). -/
def env0 : Env Unit :=
  { engine := engineEmpty, now := 0, stamp := "stim_0", rand1 := 0, rand2 := 0
    sqrt_fn := fun _ => 0, exp_fn := fun _ => 1, log_fn := fun _ => 0
    sha256_fn := fun s => s, json_fn := fun _ => "", float_str := fun _ => ""
    gravity_renewal := fun _ => none, posteriori_cache := fun _ => none
    lightning_query := fun _ => none, shadows := fun _ => []
    map_adjacency := fun _ => node0, neighbors := fun _ _ => []
    thought_vector := fun _ => [] }

/-- `env0` with a cached lightning result for every stimulus. -/
def env6 : Env Unit := { env0 with lightning_query := fun _ => some () }

/-- Proprioception at the orb's start position. -/
def proprio0 : ProprioState := { position := (960, 540), velocity := (0, 0), last_update := 0 }

/-- Controller state with an empty habit buffer (witness input). -/
def state0 : ControllerState Unit :=
  { habit := { buffer := [], patternCache := [] }, proprio := proprio0, bayes := () }

/-- A recorded NW observation (coords in the NW quadrant). -/
def obsNW : Observation := { quadrant := "NW", coords := (100, 200), velocity := 0, timestamp := 0 }

/-- A recorded NE observation. -/
def obsNE : Observation := { quadrant := "NE", coords := (1000, 200), velocity := 0, timestamp := 0 }

/-- A recorded SW observation. -/
def obsSW : Observation := { quadrant := "SW", coords := (100, 600), velocity := 0, timestamp := 0 }

/-- Habit state whose ring buffer already holds three observations. -/
def habitC2 : HabitState := { buffer := [obsNW, obsNE, obsSW], patternCache := [] }

/-- A cursor stimulus in the SE quadrant. -/
def stimSE : Stimulus :=
  { stype := .cursor_movement, coordinates := some (1000, 600)
    orb_coordinates := none, velocity := some 1, meta_test_mode := none }

/-- A cursor stimulus in the SW quadrant. -/
def stimSW : Stimulus :=
  { stype := .cursor_movement, coordinates := some (100, 600)
    orb_coordinates := none, velocity := some 1, meta_test_mode := none }

/-- A cursor stimulus in the NW quadrant (the spec's 8. scenario input). -/
def stimCursor : Stimulus :=
  { stype := .cursor_movement, coordinates := some (100, 200)
    orb_coordinates := none, velocity := some 5, meta_test_mode := none }

/-- A surveillance probe without test-mode metadata. -/
def stimSurv : Stimulus :=
  { stype := .surveillance_probe, coordinates := none
    orb_coordinates := none, velocity := none, meta_test_mode := none }

/-- Controller state with two buffered observations, so that the next
cursor observation fills the 3-window and persists a habit record. -/
def stateC6 : ControllerState Unit :=
  { habit := { buffer := [obsNW, obsNE], patternCache := [] }, proprio := proprio0, bayes := () }

/-! ### Helper lemmas on the mode-resolution rules -/

theorem rule_density_guard_ne_guard (thr : ℚ) (d : ℕ) (s : LogicState)
    (h : (d : ℚ) ≥ thr) :
    (rule_density_guard thr d s).active_mode ≠ .GUARD := by
  unfold rule_density_guard
  split
  · simp
  · rename_i hc
    intro hg
    exact hc ⟨Or.inl hg, h⟩

theorem rule_emergency_jump_mode (m : ℚ) (d : ℕ) (s : LogicState) :
    (rule_emergency_jump m d s).active_mode = .INTUITION_JUMP ∨
    (rule_emergency_jump m d s).active_mode = s.active_mode := by
  unfold rule_emergency_jump
  split
  · exact Or.inl rfl
  · exact Or.inr rfl

theorem rule_habit_posterior_mode (hp : ℚ) (s : LogicState) :
    (rule_habit_posterior hp s).active_mode = .HABIT ∨
    (rule_habit_posterior hp s).active_mode = s.active_mode := by
  unfold rule_habit_posterior
  split
  · exact Or.inl rfl
  · exact Or.inr rfl

theorem rule_jump_posterior_mode (jp : ℚ) (s : LogicState) :
    (rule_jump_posterior jp s).active_mode = .INTUITION_JUMP ∨
    (rule_jump_posterior jp s).active_mode = s.active_mode := by
  unfold rule_jump_posterior
  split
  · exact Or.inl rfl
  · exact Or.inr rfl

theorem post_rules_preserve_ne_guard (maxd hp jp : ℚ) (d : ℕ) (s : LogicState)
    (h : s.active_mode ≠ .GUARD) :
    (rule_jump_posterior jp (rule_habit_posterior hp
      (rule_emergency_jump maxd d s))).active_mode ≠ .GUARD := by
  rcases rule_jump_posterior_mode jp (rule_habit_posterior hp (rule_emergency_jump maxd d s))
    with h3 | h3 <;> rw [h3]
  · simp
  · rcases rule_habit_posterior_mode hp (rule_emergency_jump maxd d s) with h2 | h2 <;> rw [h2]
    · simp
    · rcases rule_emergency_jump_mode maxd d s with h1 | h1 <;> rw [h1]
      · simp
      · exact h

/-- C1: in `_synthesize_logic_triad`, whenever the spatial field density
(live node count) is at least `purge_trigger_threshold`, the resolved
active mode is never GUARD: the intuitive branch returns
INTUITION-JUMP, and otherwise rule 4 forces GUARD-HABIT out of any
guarded mode, after which the remaining rules can only move to HABIT or
INTUITION-JUMP. -/
theorem claim1_no_guard_at_purge_density (e : Engine) (induc : Option Prediction)
    (intuitive : NecessityResult) (hp jp gp : Option ℚ) (bs : List (String × ℚ))
    (h : (e.field_map.length : ℚ) ≥ e.purge_trigger_threshold) :
    (synthesize_logic_triad e induc intuitive hp jp gp bs).active_mode ≠ .GUARD := by
  have hd : ((max e.field_map.length e.last_density_breach : ℕ) : ℚ) ≥
      e.purge_trigger_threshold :=
    h.trans (Nat.cast_le.mpr (Nat.le_max_left _ _))
  cases hj : intuitive.jump_triggered
  · simp only [synthesize_logic_triad, hj, Bool.false_eq_true, if_false]
    exact post_rules_preserve_ne_guard _ _ _ _ _ (rule_density_guard_ne_guard _ _ _ hd)
  · simp [synthesize_logic_triad, hj]

/-- Witness for C1 at a concrete engine: two live nodes with the purge
threshold set to 2. -/
theorem claim1_witness :
    ((engineC1.field_map.length : ℚ) ≥ engineC1.purge_trigger_threshold) ∧
    (synthesize_logic_triad engineC1 none nr0 none none none []).active_mode ≠ .GUARD :=
  ⟨by norm_num [engineC1], claim1_no_guard_at_purge_density engineC1 none nr0 none none none []
    (by norm_num [engineC1])⟩

/-- C4: `_calculate_convergence` equals the closed-form of the spec —
0.85, plus 0.14 on a triggered jump else 0.08 on an active habit, plus
0.02 for ≥ 3 shadows, plus `min(0.001·magnitude, 0.02)` — clamped to at
most 0.99; consequently every confidence output lies in [0, 0.99]. -/
theorem claim4_convergence_formula_and_bounds (shadows : List (String × Shadow))
    (logic : LogicState) (tvec : List ℚ) :
    calculate_convergence shadows logic tvec =
      min (0.85
        + (if logic.intuitive_jump_triggered then 0.14
           else if logic.custom_habit_active then 0.08 else 0)
        + (if 3 ≤ shadows.length then 0.02 else 0)
        + min ((tvec.map (fun v => |v|)).sum * 0.001) 0.02) 0.99 ∧
    0 ≤ calculate_convergence shadows logic tvec ∧
    calculate_convergence shadows logic tvec ≤ 0.99 := by
  have hmag : (0 : ℚ) ≤ (tvec.map (fun v => |v|)).sum :=
    List.sum_nonneg (by
      intro a ha
      obtain ⟨v, _, hv⟩ := List.mem_map.mp ha
      exact hv ▸ abs_nonneg v)
  have hmin : (0 : ℚ) ≤ min ((tvec.map (fun v => |v|)).sum * 0.001) 0.02 :=
    le_min (by positivity) (by norm_num)
  have heq : calculate_convergence shadows logic tvec =
      min (0.85
        + (if logic.intuitive_jump_triggered then 0.14
           else if logic.custom_habit_active then 0.08 else 0)
        + (if 3 ≤ shadows.length then 0.02 else 0)
        + min ((tvec.map (fun v => |v|)).sum * 0.001) 0.02) 0.99 := by
    simp only [calculate_convergence]
    split_ifs <;> simp_all
  have hb1 : (0 : ℚ) ≤ (if logic.intuitive_jump_triggered then (0.14 : ℚ)
      else if logic.custom_habit_active then 0.08 else 0) := by
    split_ifs <;> norm_num
  have hb2 : (0 : ℚ) ≤ (if 3 ≤ shadows.length then (0.02 : ℚ) else 0) := by
    split_ifs <;> norm_num
  refine ⟨heq, ?_, ?_⟩
  · rw [heq]
    refine le_min (by linarith) (by norm_num)
  · rw [heq]
    exact min_le_right _ _

/-- C10: the bilateral-symmetry computation is total — fewer than 2
nodes yield score 0, the pair-count divisor is strictly positive
whenever the division is reached (≥ 2 nodes), and `check_necessity` on
an empty field returns a diagnostic result with unity score 0. -/
theorem claim10_symmetry_totality (e : Engine) :
    (e.field_map.length < 2 → calculate_bilateral_symmetry e = 0) ∧
    (∀ n : ℕ, 2 ≤ n → 0 < totalPairs n) ∧
    (2 ≤ e.field_map.length →
      0 < totalPairs e.field_map.length ∧
      calculate_bilateral_symmetry e =
        (mirrorCount (e.field_map.map (·.coordinates)) : ℚ) /
          totalPairs e.field_map.length) ∧
    (e.field_map = [] →
      (check_necessity e).jump_triggered = false ∧
      (check_necessity e).substance_unity_score = 0 ∧
      (check_necessity e).field_density = 0 ∧
      (check_necessity e).spinozan_certainty = 0) := by
  have hpos : ∀ n : ℕ, 2 ≤ n → 0 < totalPairs n := by
    intro n hn
    have h2 : (2 : ℚ) ≤ (n : ℚ) := by exact_mod_cast hn
    unfold totalPairs
    nlinarith
  refine ⟨?_, hpos, ?_, ?_⟩
  · intro h
    simp only [calculate_bilateral_symmetry]
    split_ifs <;> rfl
  · intro h
    refine ⟨hpos _ h, ?_⟩
    have hne : e.field_map ≠ [] := by
      intro hnil
      rw [hnil] at h
      simp at h
    simp only [calculate_bilateral_symmetry]
    rw [if_neg hne, if_neg (by omega), if_pos (hpos _ h)]
  · intro h
    have hsym : calculate_bilateral_symmetry e = 0 := by
      simp only [calculate_bilateral_symmetry]
      rw [if_pos h]
    have hden : e.field_map.length = 0 := by rw [h]; rfl
    have hnot : ¬(density_threshold < e.field_map.length ∧
        symmetry_threshold < calculate_bilateral_symmetry e) := by
      rintro ⟨hc, _⟩
      rw [hden] at hc
      simp [density_threshold] at hc
    simp only [check_necessity]
    rw [if_neg hnot]
    exact ⟨rfl, hsym, hden, rfl⟩

/-- Witness for C10, instantiated on the empty engine and the two-node
engine. -/
theorem claim10_witness :
    calculate_bilateral_symmetry engineEmpty = 0 ∧
    (0 : ℚ) < totalPairs 2 ∧
    (0 < totalPairs engineC1.field_map.length ∧
      calculate_bilateral_symmetry engineC1 =
        (mirrorCount (engineC1.field_map.map (·.coordinates)) : ℚ) /
          totalPairs engineC1.field_map.length) ∧
    (check_necessity engineEmpty).jump_triggered = false ∧
    (check_necessity engineEmpty).substance_unity_score = 0 :=
  ⟨(claim10_symmetry_totality engineEmpty).1 (by norm_num [engineEmpty]),
   (claim10_symmetry_totality engineEmpty).2.1 2 (by norm_num),
   (claim10_symmetry_totality engineC1).2.2.1 (by norm_num [engineC1]),
   ((claim10_symmetry_totality engineEmpty).2.2.2 rfl).1,
   ((claim10_symmetry_totality engineEmpty).2.2.2 rfl).2.1⟩

theorem substance_vector_eq_centroid (e : Engine) (h2 : 2 ≤ e.dimension) :
    calculate_substance_vector e = centroid_first_two e := by
  simp only [calculate_substance_vector, centroid_first_two]
  split_ifs with hempty
  · rw [hempty]
    simp
  · have hd : 2 ≤ min e.dimension 18 := le_min h2 (by norm_num)
    have hfun : ∀ i : ℕ, ∀ nd : Node,
        (if i < nd.coordinates.length then nd.coordinates.getD i 0 else 0) =
          nd.coordinates.getD i 0 := by
      intro i nd
      split_ifs with hlen
      · rfl
      · exact (List.getD_eq_default _ _ (by omega)).symm
    have hcomp : ∀ i : ℕ, i < min e.dimension 18 →
        ((List.range (min e.dimension 18)).map (fun j =>
          ((e.field_map.map (fun nd =>
            if j < nd.coordinates.length then nd.coordinates.getD j 0 else 0)).sum) /
              (e.field_map.length : ℚ))).getD i 0 =
        (e.field_map.map (fun nd => nd.coordinates.getD i 0)).sum /
          (e.field_map.length : ℚ) := by
      intro i hi
      rw [List.getD_eq_getElem?_getD, List.getElem?_map, List.getElem?_range hi]
      simp only [Option.map_some', Option.getD_some]
      rw [List.map_congr_left (fun nd _ => hfun i nd)]
    simp only [Prod.mk.injEq]
    exact ⟨hcomp 0 (by omega), hcomp 1 (by omega)⟩

/-- C5: `check_necessity` triggers a jump — with spinozan certainty
0.98 and a necessity vector equal to the centroid of all node
coordinates (first two dimensions) — exactly when the live node count
exceeds 50 and the bilateral symmetry score exceeds 0.9; in every other
case it reports `jump_triggered = false` with certainty 0.0 while still
reporting the measured density and symmetry. -/
theorem claim5_check_necessity_characterization (e : Engine) (h2 : 2 ≤ e.dimension) :
    ((check_necessity e).jump_triggered = true ↔
      (50 < e.field_map.length ∧ (0.9 : ℚ) < calculate_bilateral_symmetry e)) ∧
    ((check_necessity e).jump_triggered = true →
      (check_necessity e).spinozan_certainty = 0.98 ∧
      (check_necessity e).necessity_vector = some (centroid_first_two e) ∧
      (check_necessity e).field_density = e.field_map.length ∧
      (check_necessity e).substance_unity_score = calculate_bilateral_symmetry e) ∧
    ((check_necessity e).jump_triggered = false →
      (check_necessity e).spinozan_certainty = 0 ∧
      (check_necessity e).necessity_vector = none ∧
      (check_necessity e).field_density = e.field_map.length ∧
      (check_necessity e).substance_unity_score = calculate_bilateral_symmetry e) := by
  have hsub := substance_vector_eq_centroid e h2
  simp only [check_necessity, density_threshold, symmetry_threshold]
  split_ifs with hc
  · refine ⟨⟨fun _ => hc, fun _ => rfl⟩, fun _ => ⟨rfl, ?_, rfl, rfl⟩, fun hfalse => ?_⟩
    · rw [hsub]
    · cases hfalse
  · refine ⟨⟨fun htrue => ?_, fun hcond => ?_⟩, fun htrue => ?_, fun _ => ⟨rfl, rfl, rfl, rfl⟩⟩
    · cases htrue
    · exact absurd hcond hc
    · cases htrue

/-- Witness for C5 at the empty two-dimensional engine: no jump is
triggered and the diagnostics are reported. -/
theorem claim5_witness :
    2 ≤ engineEmpty.dimension ∧
    ((check_necessity engineEmpty).jump_triggered = true ↔
      (50 < engineEmpty.field_map.length ∧
        (0.9 : ℚ) < calculate_bilateral_symmetry engineEmpty)) :=
  ⟨by norm_num [engineEmpty],
   (claim5_check_necessity_characterization engineEmpty (by norm_num [engineEmpty])).1⟩

/-! ### Fire/skip lemmas for the density and posterior rules -/

theorem rule_density_guard_mode (thr : ℚ) (d : ℕ) (s : LogicState) :
    (rule_density_guard thr d s).active_mode = .GUARD_HABIT ∨
    (rule_density_guard thr d s).active_mode = s.active_mode := by
  unfold rule_density_guard
  split
  · exact Or.inl rfl
  · exact Or.inr rfl

theorem rule_density_guard_fires (thr : ℚ) (d : ℕ) (s : LogicState)
    (h1 : s.active_mode = .GUARD ∨ s.active_mode = .GUARD_HABIT)
    (h2 : (d : ℚ) ≥ thr) :
    rule_density_guard thr d s =
      { s with active_mode := .GUARD_HABIT, density_penalty := some 1 } := by
  unfold rule_density_guard
  rw [if_pos ⟨h1, h2⟩]

theorem rule_emergency_jump_skips (m : ℚ) (d : ℕ) (s : LogicState)
    (h : (d : ℚ) < m * 0.95) :
    rule_emergency_jump m d s = s := by
  unfold rule_emergency_jump
  rw [if_neg]
  rintro ⟨h1, _⟩
  exact absurd h1 (not_le.mpr h)

theorem rule_emergency_jump_fires (m : ℚ) (d : ℕ) (s : LogicState)
    (h1 : (d : ℚ) ≥ m * 0.95) (h2 : s.active_mode ≠ .INTUITION_JUMP) :
    rule_emergency_jump m d s =
      { s with active_mode := .INTUITION_JUMP, density_penalty := some 1.5 } := by
  unfold rule_emergency_jump
  rw [if_pos ⟨h1, h2⟩]

theorem rule_habit_posterior_skips_low (hp : ℚ) (s : LogicState) (h : hp ≤ 0.55) :
    rule_habit_posterior hp s = s := by
  unfold rule_habit_posterior
  rw [if_neg]
  rintro ⟨_, hgt⟩
  exact absurd hgt (not_lt.mpr h)

theorem rule_habit_posterior_skips_mode (hp : ℚ) (s : LogicState)
    (h : ¬(s.active_mode = .GUARD ∨ s.active_mode = .GUARD_HABIT)) :
    rule_habit_posterior hp s = s := by
  unfold rule_habit_posterior
  rw [if_neg]
  rintro ⟨h1, _⟩
  exact h h1

theorem rule_jump_posterior_skips_low (jp : ℚ) (s : LogicState) (h : jp ≤ 0.45) :
    rule_jump_posterior jp s = s := by
  unfold rule_jump_posterior
  rw [if_neg]
  rintro ⟨_, hgt⟩
  exact absurd hgt (not_lt.mpr h)

theorem rule_jump_posterior_skips_jump (jp : ℚ) (s : LogicState)
    (h : s.active_mode = .INTUITION_JUMP) :
    rule_jump_posterior jp s = s := by
  unfold rule_jump_posterior
  rw [if_neg]
  rintro ⟨h1, _⟩
  exact h1 h

theorem rule_density_guard_density (thr : ℚ) (d : ℕ) (s : LogicState) :
    (rule_density_guard thr d s).field_density = s.field_density := by
  unfold rule_density_guard
  split <;> rfl

theorem rule_emergency_jump_density (m : ℚ) (d : ℕ) (s : LogicState) :
    (rule_emergency_jump m d s).field_density = s.field_density := by
  unfold rule_emergency_jump
  split <;> rfl

theorem rule_habit_posterior_density (hp : ℚ) (s : LogicState) :
    (rule_habit_posterior hp s).field_density = s.field_density := by
  unfold rule_habit_posterior
  split <;> rfl

theorem rule_jump_posterior_density (jp : ℚ) (s : LogicState) :
    (rule_jump_posterior jp s).field_density = s.field_density := by
  unfold rule_jump_posterior
  split <;> rfl

theorem rule_inductive_density (induc : Option Prediction) (s : LogicState) :
    (rule_inductive induc s).field_density = s.field_density := by
  cases induc <;> rfl

theorem rule_inductive_mode_low (induc : Option Prediction) (s : LogicState)
    (hs : s.active_mode = .GUARD)
    (hlow : ∀ p, induc = some p → p.confidence ≤ 0.35) :
    (rule_inductive induc s).active_mode = .GUARD ∨
    (rule_inductive induc s).active_mode = .GUARD_HABIT := by
  cases induc with
  | none => exact Or.inl hs
  | some p =>
      right
      have hc := hlow p rfl
      show (if p.confidence > 0.35 then Mode.HABIT else Mode.GUARD_HABIT) = Mode.GUARD_HABIT
      rw [if_neg (not_lt.mpr hc)]

theorem rule_inductive_mode_ne_jump (induc : Option Prediction) (s : LogicState)
    (hs : s.active_mode ≠ .INTUITION_JUMP) :
    (rule_inductive induc s).active_mode ≠ .INTUITION_JUMP := by
  cases induc with
  | none => exact hs
  | some p =>
      show (if p.confidence > 0.35 then Mode.HABIT else Mode.GUARD_HABIT) ≠ Mode.INTUITION_JUMP
      split_ifs <;> simp

theorem post_chain_forced_guard_habit (thr maxd hp' jp' : ℚ) (d : ℕ) (s : LogicState)
    (hmode : s.active_mode = .GUARD ∨ s.active_mode = .GUARD_HABIT)
    (hthr : (d : ℚ) ≥ thr) (hlt : (d : ℚ) < maxd * 0.95)
    (hhp : hp' ≤ 0.55) (hjp : jp' ≤ 0.45) :
    (rule_jump_posterior jp' (rule_habit_posterior hp' (rule_emergency_jump maxd d
      (rule_density_guard thr d s)))).active_mode = .GUARD_HABIT ∧
    (rule_jump_posterior jp' (rule_habit_posterior hp' (rule_emergency_jump maxd d
      (rule_density_guard thr d s)))).density_penalty = some 1 := by
  rw [rule_density_guard_fires thr d s hmode hthr,
      rule_emergency_jump_skips maxd d _ hlt,
      rule_habit_posterior_skips_low hp' _ hhp,
      rule_jump_posterior_skips_low jp' _ hjp]
  exact ⟨rfl, rfl⟩

theorem post_chain_emergency (thr maxd hp' jp' : ℚ) (d : ℕ) (s : LogicState)
    (hmode : s.active_mode ≠ .INTUITION_JUMP)
    (hge : (d : ℚ) ≥ maxd * 0.95) :
    (rule_jump_posterior jp' (rule_habit_posterior hp' (rule_emergency_jump maxd d
      (rule_density_guard thr d s)))).active_mode = .INTUITION_JUMP ∧
    (rule_jump_posterior jp' (rule_habit_posterior hp' (rule_emergency_jump maxd d
      (rule_density_guard thr d s)))).density_penalty = some 1.5 := by
  have hmode2 : (rule_density_guard thr d s).active_mode ≠ .INTUITION_JUMP := by
    rcases rule_density_guard_mode thr d s with h | h <;> rw [h]
    · simp
    · exact hmode
  rw [rule_emergency_jump_fires maxd d _ hge hmode2,
      rule_habit_posterior_skips_mode _ _ (by simp),
      rule_jump_posterior_skips_jump _ _ rfl]
  exact ⟨rfl, rfl⟩

/-- C9 (implicit): `_synthesize_logic_triad` compares
`max(live node count, engine.last_density_breach)` — not the live count
alone — against both thresholds.  With a recorded breach at or above a
threshold, the density-forcing rules keep firing even when the live
node count has dropped below it: the forced GUARD-HABIT (penalty 1.0)
and the emergency INTUITION-JUMP (penalty 1.5). -/
theorem claim9_breach_density_persistence (e : Engine) (induc : Option Prediction)
    (intuitive : NecessityResult) (hp jp gp : Option ℚ) (bs : List (String × ℚ))
    (hnj : intuitive.jump_triggered = false)
    (hlive : (e.field_map.length : ℚ) < e.purge_trigger_threshold)
    (hbreach : (e.last_density_breach : ℚ) ≥ e.purge_trigger_threshold) :
    (synthesize_logic_triad e induc intuitive hp jp gp bs).field_density =
      max e.field_map.length e.last_density_breach ∧
    ((∀ p, induc = some p → p.confidence ≤ 0.35) →
      (e.last_density_breach : ℚ) < e.max_field_density * 0.95 →
      (e.field_map.length : ℚ) < e.max_field_density * 0.95 →
      pyOr hp 0 ≤ 0.55 → pyOr jp 0 ≤ 0.45 →
      (synthesize_logic_triad e induc intuitive hp jp gp bs).active_mode = .GUARD_HABIT ∧
      (synthesize_logic_triad e induc intuitive hp jp gp bs).density_penalty = some 1) ∧
    ((e.last_density_breach : ℚ) ≥ e.max_field_density * 0.95 →
      (synthesize_logic_triad e induc intuitive hp jp gp bs).active_mode = .INTUITION_JUMP ∧
      (synthesize_logic_triad e induc intuitive hp jp gp bs).density_penalty = some 1.5) := by
  have hcastD : ((max e.field_map.length e.last_density_breach : ℕ) : ℚ) =
      max (e.field_map.length : ℚ) (e.last_density_breach : ℚ) := Nat.cast_max _ _
  have hDthr : ((max e.field_map.length e.last_density_breach : ℕ) : ℚ) ≥
      e.purge_trigger_threshold :=
    hbreach.trans (Nat.cast_le.mpr (Nat.le_max_right _ _))
  refine ⟨?_, ?_, ?_⟩
  · simp only [synthesize_logic_triad, hnj, Bool.false_eq_true, if_false,
      rule_jump_posterior_density, rule_habit_posterior_density,
      rule_emergency_jump_density, rule_density_guard_density]
    simp [rule_inductive_density, baseLogicState]
  · intro hind hmb hml hhp hjp
    have hDlt : ((max e.field_map.length e.last_density_breach : ℕ) : ℚ) <
        e.max_field_density * 0.95 := by
      rw [hcastD]
      exact max_lt hml hmb
    have hri := rule_inductive_mode_low induc
      (baseLogicState (max e.field_map.length e.last_density_breach)) rfl hind
    simp only [synthesize_logic_triad, hnj, Bool.false_eq_true, if_false]
    exact post_chain_forced_guard_habit _ _ _ _ _ _ hri hDthr hDlt hhp hjp
  · intro hmC
    have hDge : ((max e.field_map.length e.last_density_breach : ℕ) : ℚ) ≥
        e.max_field_density * 0.95 :=
      hmC.trans (Nat.cast_le.mpr (Nat.le_max_right _ _))
    have hne := rule_inductive_mode_ne_jump induc
      (baseLogicState (max e.field_map.length e.last_density_breach)) (by simp [baseLogicState])
    simp only [synthesize_logic_triad, hnj, Bool.false_eq_true, if_false]
    exact post_chain_emergency _ _ _ _ _ _ hne hDge

/-- Witness for C9 at two concrete engines: a breach of 100 (emergency
band) and a breach of 12 (purge band) over an empty live field. -/
theorem claim9_witness :
    nr0.jump_triggered = false ∧
    ((engineC9a.field_map.length : ℚ) < engineC9a.purge_trigger_threshold) ∧
    ((engineC9a.last_density_breach : ℚ) ≥ engineC9a.purge_trigger_threshold) ∧
    ((synthesize_logic_triad engineC9a none nr0 none none none []).active_mode =
        .INTUITION_JUMP ∧
      (synthesize_logic_triad engineC9a none nr0 none none none []).density_penalty =
        some 1.5) ∧
    ((synthesize_logic_triad engineC9b none nr0 none none none []).active_mode =
        .GUARD_HABIT ∧
      (synthesize_logic_triad engineC9b none nr0 none none none []).density_penalty =
        some 1) := by
  refine ⟨rfl, by norm_num [engineC9a], by norm_num [engineC9a], ?_, ?_⟩
  · exact (claim9_breach_density_persistence engineC9a none nr0 none none none []
      rfl (by norm_num [engineC9a]) (by norm_num [engineC9a])).2.2
      (by norm_num [engineC9a])
  · exact (claim9_breach_density_persistence engineC9b none nr0 none none none []
      rfl (by norm_num [engineC9b]) (by norm_num [engineC9b])).2.1
      (fun p hp => nomatch hp) (by norm_num [engineC9b]) (by norm_num [engineC9b])
      (by norm_num [pyOr]) (by norm_num [pyOr])

/-- C8: the envelope's `final_verdict` is the fixed mode-to-verdict
table applied to the resolved mode, every per-perspective
`advisory_verdict` equals that same value, and `final_verdict_source`
is always the fixed deliberation-path string, never the name of a
single perspective. -/
theorem claim8_envelope_advisory_verdicts {γ : Type} (env : Env γ) (stim : Stimulus)
    (shadows : List (String × Shadow)) (bayes_shadows : List (String × ℚ))
    (logic : LogicState) (confidence : ℚ) :
    (build_correlation_envelope env stim shadows bayes_shadows logic
        confidence).final_verdict = verdict_from_mode logic.active_mode ∧
    (build_correlation_envelope env stim shadows bayes_shadows logic
        confidence).core_4.caleon.advisory_verdict = verdict_from_mode logic.active_mode ∧
    (build_correlation_envelope env stim shadows bayes_shadows logic
        confidence).core_4.kaygee.advisory_verdict = verdict_from_mode logic.active_mode ∧
    (build_correlation_envelope env stim shadows bayes_shadows logic
        confidence).core_4.cali_x_one.advisory_verdict = verdict_from_mode logic.active_mode ∧
    (build_correlation_envelope env stim shadows bayes_shadows logic
        confidence).final_verdict_source = "UCM Core-4 deliberation (ECM advisory only)" ∧
    verdict_from_mode .INTUITION_JUMP = "escalate" ∧
    verdict_from_mode .HABIT = "act" ∧
    verdict_from_mode .GUARD_HABIT = "monitor" ∧
    verdict_from_mode .GUARD = "no_act" :=
  ⟨rfl, rfl, rfl, rfl, rfl, rfl, rfl, rfl, rfl⟩

/-- C3: a `surveillance_probe` stimulus whose metadata does not set
`test_mode` to `True` makes `cognitively_emerge` return `None` with no
state mutation whatsoever (habit buffer, pattern counts, proprioception
and Bayesian state are returned untouched) and no external effect. -/
theorem claim3_surveillance_rejected {β γ : Type} (bm : BayesModel β) (env : Env γ)
    (s : ControllerState β) (stim : Stimulus)
    (hT : stim.stype = .surveillance_probe)
    (hM : stim.meta_test_mode ≠ some true) :
    cognitively_emerge bm env s stim = (none, s, []) := by
  have hs : check_sovereignty stim = false := by
    unfold check_sovereignty
    rw [if_neg hM, if_pos hT]
  simp [cognitively_emerge, hs]

/-- Witness for C3 on a concrete surveillance probe. -/
theorem claim3_witness :
    stimSurv.stype = .surveillance_probe ∧
    stimSurv.meta_test_mode ≠ some true ∧
    cognitively_emerge bm0 env0 state0 stimSurv = (none, state0, []) :=
  ⟨rfl, by simp [stimSurv],
   claim3_surveillance_rejected bm0 env0 state0 stimSurv rfl (by simp [stimSurv])⟩

/-- Every event emitted by `record_observation` is a habit-record
crystallization. -/
theorem record_observation_events (now : ℚ) (h : HabitState) (stim : Stimulus) :
    ∀ ev ∈ (record_observation now h stim).2.2, ∃ k r, ev = Event.crystallize_habit k r := by
  simp only [record_observation]
  split_ifs <;> intro ev hev
  · simp at hev
  · simp at hev
    exact ⟨_, _, hev⟩
  · simp at hev

/-- Every event emitted by the shadow update is a prior initialisation
or an evidence addition. -/
theorem update_bayesian_shadows_events {β : Type} (bm : BayesModel β) (b : β)
    (shadows : List (String × Shadow)) (stamp : String) :
    ∀ ev ∈ (update_bayesian_shadows bm b shadows stamp).2.2,
      isPriorEvent ev = true ∨ isEvidenceEvent ev = true := by
  have haux : ∀ (l : List (String × Shadow)) (acc : List (String × ℚ) × β × List Event),
      (∀ ev ∈ acc.2.2, isPriorEvent ev = true ∨ isEvidenceEvent ev = true) →
      ∀ ev ∈ (l.foldl (shadow_fold_step bm stamp) acc).2.2,
        isPriorEvent ev = true ∨ isEvidenceEvent ev = true := by
    intro l
    induction l with
    | nil => intro acc hacc; simpa using hacc
    | cons hd tl ih =>
        intro acc hacc
        rw [List.foldl_cons]
        apply ih
        intro ev hev
        simp only [shadow_fold_step] at hev
        split_ifs at hev <;> simp only [List.mem_append, List.mem_singleton] at hev
        · rcases hev with h1 | h1
          · exact hacc ev h1
          · right; rw [h1]; rfl
        · rcases hev with (h1 | h1) | h1
          · exact hacc ev h1
          · left; rw [h1]; rfl
          · right; rw [h1]; rfl
  intro ev hev
  exact haux shadows ([], b, []) (by intro ev hev; simp at hev) ev hev

/-- C6 (amended): when the vault's `lightning_query` returns a cached
result, `cognitively_emerge` returns that cached result verbatim; the
Bayesian state is untouched, no shadows are requested, no evidence or
prior is added, no outcome feedback happens and no synthesized thought
is crystallized.  The only effect that can precede the bypass is the
habit-record crystallization performed by `record_observation` (and the
habit-buffer/proprioception updates), since the bypass check runs after
the pattern-memory update. -/
theorem claim6_lightning_bypass {β γ : Type} (bm : BayesModel β) (env : Env γ)
    (s : ControllerState β) (stim : Stimulus) (r : γ)
    (hS : check_sovereignty stim = true)
    (hB : env.lightning_query stim = some r) :
    cognitively_emerge bm env s stim =
      (some (.bypass r),
       { habit := (record_observation env.now s.habit stim).2.1
         proprio := update_physics s.proprio
           (stim.orb_coordinates.getD s.proprio.position) 0.1 env.now
         bayes := s.bayes },
       (record_observation env.now s.habit stim).2.2) ∧
    (cognitively_emerge bm env s stim).2.1.bayes = s.bayes ∧
    ((cognitively_emerge bm env s stim).2.2.all (fun ev =>
      !isThoughtCrystal ev && !isShadowRequest ev && !isEvidenceEvent ev &&
      !isOutcomeEvent ev && !isPriorEvent ev)) = true := by
  have hmain : cognitively_emerge bm env s stim =
      (some (.bypass r),
       { habit := (record_observation env.now s.habit stim).2.1
         proprio := update_physics s.proprio
           (stim.orb_coordinates.getD s.proprio.position) 0.1 env.now
         bayes := s.bayes },
       (record_observation env.now s.habit stim).2.2) := by
    simp only [cognitively_emerge, hS, hB]
    rfl
  refine ⟨hmain, by rw [hmain], ?_⟩
  rw [hmain]
  rw [List.all_eq_true]
  intro ev hev
  obtain ⟨k, rc, hkr⟩ := record_observation_events env.now s.habit stim ev hev
  rw [hkr]
  rfl

/-- Witness for C6: a text query on the stubbed environment with a
cached lightning result. -/
theorem claim6_witness :
    check_sovereignty stimCursor = true ∧
    env6.lightning_query stimCursor = some () ∧
    cognitively_emerge bm0 env6 state0 stimCursor =
      (some (.bypass ()),
       { habit := (record_observation env6.now state0.habit stimCursor).2.1
         proprio := update_physics state0.proprio
           (stimCursor.orb_coordinates.getD state0.proprio.position) 0.1 env6.now
         bayes := state0.bayes },
       (record_observation env6.now state0.habit stimCursor).2.2) :=
  ⟨rfl, rfl,
   (claim6_lightning_bypass bm0 env6 state0 stimCursor () rfl rfl).1⟩

/-- Counterexample to C6 as literally stated: on a bypassed cycle whose
cursor observation fills the 3-window, something new IS crystallized —
the habit record persisted by `record_observation` before the bypass
check. -/
theorem claim6_counterexample :
    (cognitively_emerge bm0 env6 stateC6 stimSW).1 = some (.bypass ()) ∧
    ((cognitively_emerge bm0 env6 stateC6 stimSW).2.2.any
      (fun ev => isHabitCrystal ev)) = true :=
  ⟨rfl, rfl⟩

/-- C7: after every full (non-bypassed) cycle the belief updater
receives exactly one outcome update per named hypothesis, with the
source's success predicates and weights: `habit_continues` (0.7)
succeeds iff the mode is HABIT or GUARD-HABIT and the inductive
prediction's confidence exceeds 0.4, `jump_necessary` (0.6) succeeds
iff the mode is INTUITION-JUMP and the jump actually triggered, and
`guard_sufficient` (0.5) succeeds iff the mode is GUARD and neither of
the other two held. -/
theorem claim7_outcome_feedback {β γ : Type} (bm : BayesModel β) (env : Env γ)
    (s : ControllerState β) (stim : Stimulus) (b : β) (logic : LogicState)
    (hS : check_sovereignty stim = true)
    (hB : env.lightning_query stim = none) :
    (update_bayesian_outcome bm b logic).2 =
      [.outcome_updated "habit_continues"
        (decide ((logic.active_mode = .HABIT ∨ logic.active_mode = .GUARD_HABIT) ∧
          ((logic.inductive_prediction.map (fun p => p.confidence)).getD 0 : ℚ) > 0.4)) 0.7,
       .outcome_updated "jump_necessary"
        (decide (logic.active_mode = .INTUITION_JUMP ∧
          logic.intuitive_jump_triggered = true)) 0.6,
       .outcome_updated "guard_sufficient"
        (decide (logic.active_mode = .GUARD) &&
         !(decide ((logic.active_mode = .HABIT ∨ logic.active_mode = .GUARD_HABIT) ∧
            ((logic.inductive_prediction.map (fun p => p.confidence)).getD 0 : ℚ) > 0.4)) &&
         !(decide (logic.active_mode = .INTUITION_JUMP ∧
            logic.intuitive_jump_triggered = true))) 0.5] ∧
    ((cognitively_emerge bm env s stim).2.2.filter (fun ev => isOutcomeEvent ev)) =
      (update_bayesian_outcome bm (emerge_shadow_step bm env s stim).2.1
        (emerge_logic bm env s stim)).2 := by
  refine ⟨rfl, ?_⟩
  simp only [cognitively_emerge, hS, hB]
  rw [if_neg (show ¬(true = false) by simp)]
  dsimp only
  rw [List.filter_append, List.filter_append, List.filter_append, List.filter_append]
  have hrec : List.filter (fun ev => isOutcomeEvent ev)
      (record_observation env.now s.habit stim).2.2 = [] := by
    rw [List.filter_eq_nil_iff]
    intro ev hev
    obtain ⟨k, rc, hkr⟩ := record_observation_events env.now s.habit stim ev hev
    rw [hkr]
    simp [isOutcomeEvent]
  have hsh : List.filter (fun ev => isOutcomeEvent ev)
      (emerge_shadow_step bm env s stim).2.2 = [] := by
    rw [List.filter_eq_nil_iff]
    intro ev hev
    rcases update_bayesian_shadows_events bm s.bayes (env.shadows stim) env.stamp ev hev
      with h1 | h1 <;> cases ev <;> simp_all [isPriorEvent, isEvidenceEvent, isOutcomeEvent]
  rw [hrec, hsh]
  simp [update_bayesian_outcome, isOutcomeEvent]

/-- Witness for C7 on the stubbed environment without a cached result. -/
theorem claim7_witness :
    check_sovereignty stimCursor = true ∧
    env0.lightning_query stimCursor = none ∧
    ((cognitively_emerge bm0 env0 state0 stimCursor).2.2.filter
      (fun ev => isOutcomeEvent ev)) =
      (update_bayesian_outcome bm0 (emerge_shadow_step bm0 env0 state0 stimCursor).2.1
        (emerge_logic bm0 env0 state0 stimCursor)).2 :=
  ⟨rfl, rfl,
   (claim7_outcome_feedback bm0 env0 state0 stimCursor () (baseLogicState 0) rfl rfl).2⟩

/-- C2 (code evidence): once the ring buffer holds more than three
observations, `record_observation` persists the prediction record under
the key derived from ALL buffered observations (up to five), not under
the 3-tuple pattern key of the last three.  Concretely, with buffer
[NW, NE, SW] a fourth observation in SE persists
`habit_NW_NE_SW_SE` (frequency = count/10 of that four-label key),
whereas the 3-tuple key of the last three observations — the one
`predict_next` will look up — is `NE_SW_SE`. -/
theorem claim2_persist_key_mismatch :
    (record_observation 0 habitC2 stimSE).2.2 =
      [Event.crystallize_habit "habit_NW_NE_SW_SE"
        { pattern := "NW_NE_SW_SE", frequency := min ((1 : ℚ) / 10) 1,
          predicted_next := "SE", temporal_decay := 0.95 }] ∧
    serialize_pattern ((record_observation 0 habitC2 stimSE).2.1.buffer.drop
      ((record_observation 0 habitC2 stimSE).2.1.buffer.length - 3)) = "NE_SW_SE" ∧
    "habit_NW_NE_SW_SE" ≠ "habit_NE_SW_SE" :=
  ⟨by with_unfolding_all rfl, by with_unfolding_all rfl, by decide⟩

end Orb
